import Mathlib

/-!
Verification of the `permissions` plugin of the arc repository.

The plugin's own source consists of three files: the HTTP handlers
(getPermission, putPermission, patchPermission, deletePermission), the route
table with its middleware chain, and the plugin bootstrap (InitFunc).  These
are embedded below as executable Lean functions.  The `permission` entity
package (New, the option setters, GetPatch) and the middleware guards
(classifier, basicAuth, validateOp, validateACL, isAdmin) are collaborators of
this repository whose source is not available here; they are modelled from the
specification, and each such definition carries a doc comment saying so.

External effects are made explicit parameters: the elasticsearch store's
answer to a call is passed in as a value, and the handler's observable
behaviour (HTTP status, which writes happened, whether the store was called,
whether the body was read) is returned as a record.
-/

namespace Arc

/-! ## Permission entity (modelled from the spec) -/

/-- Modelled from the spec: the closed enumeration of operation categories
("enumerated capability classes (e.g., read, write, delete, admin)").  The
`permission` package holding the real enumeration is not part of the sources
at hand. -/
def opCategories : List String := ["read", "write", "delete", "admin"]

/-- Modelled from the spec: the closed enumeration of ACL categories
("enumerated endpoint/resource classes the credential may touch"); the spec's
scenario uses the category "search". -/
def aclCategories : List String := ["search", "index", "get", "settings", "admin"]

/-- Modelled from the spec: the recognized quota keys of the Limits structure;
the spec's scenario uses "ttl_sec". -/
def limitKeys : List String := ["requests_per_sec", "ttl_sec"]

/-- Modelled from the spec: documented, non-empty default Ops for a
Permission constructed with no explicit Ops. -/
def defaultOps : List String := ["read"]

/-- Modelled from the spec: documented, non-empty default ACLs for a
Permission constructed with no explicit ACLs. -/
def defaultACLs : List String := ["search"]

/-- Modelled from the spec: default Limits for a Permission constructed with
no explicit Limits. -/
def defaultLimits : List (String × Int) := [("requests_per_sec", 100)]

/-- Modelled from the spec: the Permission record (§3).  Limits is a map of
quota key to value. -/
structure Permission where
  userId : String
  username : String
  password : String
  createdAt : Nat
  ops : List String
  acls : List String
  limits : List (String × Int)
deriving DecidableEq, Repr

/-- Modelled from the spec: a `ValidationError` names the offending field. -/
inductive PermError
  | validationError (field : String)
deriving DecidableEq, Repr

/-- Modelled from the spec: the functional options of `permission.New`
(SetUserId, SetOps, SetACLs, SetLimits). -/
inductive Options
  | setUserId (userId : String)
  | setOps (ops : List String)
  | setACLs (acls : List String)
  | setLimits (limits : List (String × Int))
deriving DecidableEq, Repr

/-- Every supplied op belongs to the closed enumeration. -/
def validOps (ops : List String) : Bool :=
  ops.all (fun o => opCategories.contains o)

/-- Every supplied ACL belongs to the closed enumeration. -/
def validACLs (acls : List String) : Bool :=
  acls.all (fun a => aclCategories.contains a)

/-- Every supplied limit has a recognized quota key and a non-negative
value. -/
def validLimits (limits : List (String × Int)) : Bool :=
  limits.all (fun kv => limitKeys.contains kv.1 && decide (0 ≤ kv.2))

/-- Modelled from the spec: the generated credential name of a new
Permission; generation is modelled as a deterministic function of the
creator. -/
def genUsername (creatorId : String) : String := creatorId ++ ":username"

/-- Modelled from the spec: the generated password of a new Permission. -/
def genPassword (creatorId : String) : String := creatorId ++ ":password"

/-- Modelled from the spec: the computed defaults of `permission.New` before
supplied options are merged over them; UserId defaults to the creator's own
identifier. -/
def defaultPermission (creatorId : String) : Permission :=
  { userId := creatorId
    username := genUsername creatorId
    password := genPassword creatorId
    createdAt := 0
    ops := defaultOps
    acls := defaultACLs
    limits := defaultLimits }

/-- Modelled from the spec: each option setter validates its own argument
against the enumerations and fails with a `ValidationError` naming the
offending field on the first invalid value. -/
def applyOption (p : Permission) (o : Options) : Except PermError Permission :=
  match o with
  | .setUserId u => .ok { p with userId := u }
  | .setOps ops =>
      if validOps ops then .ok { p with ops := ops }
      else .error (.validationError "ops")
  | .setACLs acls =>
      if validACLs acls then .ok { p with acls := acls }
      else .error (.validationError "acls")
  | .setLimits limits =>
      if validLimits limits then .ok { p with limits := limits }
      else .error (.validationError "limits")

/-- Options applied left to right, stopping at the first validation
failure. -/
def applyOptions : Permission → List Options → Except PermError Permission
  | p, [] => .ok p
  | p, o :: os =>
      match applyOption p o with
      | .error e => .error e
      | .ok q => applyOptions q os

/-- Modelled from the spec: `New(creatorId, options...)` — construction
assigns generated Username/Password and timestamps and merges supplied
options over computed defaults; pure, no storage side effect. -/
def permissionNew (creatorId : String) (opts : List Options) :
    Except PermError Permission :=
  applyOptions (defaultPermission creatorId) opts

/-! ## Request bodies and store answers -/

/-- The unmarshalled request body, mirroring the Go `permission.Permission`
target of `json.Unmarshal`: the UserId string is `""` when absent (the Go
zero value) and the three slice/struct-pointer fields are `none` when the
JSON field is absent or null and `some` (possibly of an empty list) when
explicitly provided. -/
structure BodyPermission where
  userId : String
  ops : Option (List String)
  acls : Option (List String)
  limits : Option (List (String × Int))
deriving DecidableEq, Repr

/-- The outcome of reading and unmarshalling the request body: `ReadAll` can
fail, `json.Unmarshal` can fail, or an object is produced. -/
inductive Body
  | readError
  | parseError
  | parsed (obj : BodyPermission)
deriving DecidableEq, Repr

/-- A store-level error, as the elasticsearch dao could report it: the target
is absent, or the call itself failed. -/
inductive StoreErr
  | notFound
  | failure
deriving DecidableEq, Repr

/-! ## putPermission handler (from the source) -/

/-- The inbound PUT request as the handler observes it: the decoded basic
auth pair (`none` when `r.BasicAuth()` reports no parseable credential) and
the body-read outcome. -/
structure PutRequest where
  basicAuth : Option (String × String)
  body : Body
deriving DecidableEq, Repr

/-- Observable outcome of the putPermission handler: HTTP status written,
whether the body was read, whether `p.es.putPermission` was called, and the
Permission constructed by `permission.New` when construction was reached and
succeeded. -/
structure PutOutcome where
  status : Nat
  bodyRead : Bool
  storeCalled : Bool
  constructed : Option Permission
deriving DecidableEq, Repr

/-- The options contributed by a non-empty `obj.UserId` in the body:
`permission.SetUserId(obj.UserId)` is appended exactly when the string is
non-empty. -/
def userIdOpts (obj : BodyPermission) : List Options :=
  if obj.userId ≠ "" then [Options.setUserId obj.userId] else []

/-- The options contributed by the Ops, ACLs and Limits fields of the body:
each non-nil field contributes its setter, in the source's order. -/
def tailOpts (obj : BodyPermission) : List Options :=
  (match obj.ops with
   | some ops => [Options.setOps ops]
   | none => []) ++
  (match obj.acls with
   | some acls => [Options.setACLs acls]
   | none => []) ++
  (match obj.limits with
   | some limits => [Options.setLimits limits]
   | none => [])

/-- The option list built by putPermission from the unmarshalled body
(source lines 87–99): SetUserId when `obj.UserId != ""`, then SetOps /
SetACLs / SetLimits for each non-nil field. -/
def buildOpts (obj : BodyPermission) : List Options :=
  userIdOpts obj ++ tailOpts obj

/-- The putPermission handler.  `store` is the `(ok, err)` answer
`p.es.putPermission` would give when called.  Mirrors the source: missing
basic auth → 401 before the body is read; body read or parse failure → 400;
a `permission.New` error → 500; then the store is called and `ok && err ==
nil` decides between 200 and 500. -/
def putPermission (req : PutRequest) (store : Bool × Option StoreErr) :
    PutOutcome :=
  match req.basicAuth with
  | none =>
      { status := 401, bodyRead := false, storeCalled := false,
        constructed := none }
  | some (userId, _) =>
      match req.body with
      | .readError =>
          { status := 400, bodyRead := true, storeCalled := false,
            constructed := none }
      | .parseError =>
          { status := 400, bodyRead := true, storeCalled := false,
            constructed := none }
      | .parsed obj =>
          match permissionNew userId (buildOpts obj) with
          | .error _ =>
              { status := 500, bodyRead := true, storeCalled := false,
                constructed := none }
          | .ok newPermission =>
              if store.1 && store.2.isNone then
                { status := 200, bodyRead := true, storeCalled := true,
                  constructed := some newPermission }
              else
                { status := 500, bodyRead := true, storeCalled := true,
                  constructed := some newPermission }

/-! ## getPermission handler (from the source) -/

/-- One body written back by the getPermission handler: the marshalled
context permission, the raw store document, or the not-found error
message. -/
inductive GetWrite
  | ctxPerm (p : Permission)
  | raw (doc : String)
  | errNotFound (username : String)
deriving DecidableEq, Repr

/-- The inbound GET request: the `username` path variable and the Permission
carried by the request context under `permission.CtxKey`, when any. -/
structure GetRequest where
  username : String
  ctxPermission : Option Permission
deriving DecidableEq, Repr

/-- Observable outcome of the getPermission handler: the sequence of
`(status, body)` writes, and whether `p.es.getRawPermission` was called. -/
structure GetOutcome where
  writes : List (Nat × GetWrite)
  storeCalled : Bool
deriving DecidableEq, Repr

/-- The getPermission handler.  `storeGet` is the answer
`p.es.getRawPermission(username)` would give.  Mirrors the source: a context
permission is written back with 200 but control falls through (there is no
return on that path), so the store is fetched on every request; any store
error is written as 404 not-found, a store success as 200 raw.  (The
marshalling of the context permission, which errs only on an unmarshallable
value, is modelled as total.) -/
def getPermission (req : GetRequest) (storeGet : Except StoreErr String) :
    GetOutcome :=
  let ctxWrites : List (Nat × GetWrite) :=
    match req.ctxPermission with
    | some p => [(200, GetWrite.ctxPerm p)]
    | none => []
  match storeGet with
  | .error _ =>
      { writes := ctxWrites ++ [(404, GetWrite.errNotFound req.username)],
        storeCalled := true }
  | .ok doc =>
      { writes := ctxWrites ++ [(200, GetWrite.raw doc)],
        storeCalled := true }

/-! ## patchPermission and deletePermission handlers (from the source) -/

/-- Modelled from the spec: the normalized patch map produced by the Patch
Builder — only the explicitly provided, validated fields. -/
structure Patch where
  ops : Option (List String)
  acls : Option (List String)
  limits : Option (List (String × Int))
deriving DecidableEq, Repr

/-- An optional ops field is valid when absent or within the enumeration. -/
def opsOk (o : Option (List String)) : Bool :=
  match o with
  | none => true
  | some ops => validOps ops

/-- An optional acls field is valid when absent or within the enumeration. -/
def aclsOk (o : Option (List String)) : Bool :=
  match o with
  | none => true
  | some acls => validACLs acls

/-- An optional limits field is valid when absent or shape-correct. -/
def limitsOk (o : Option (List (String × Int))) : Bool :=
  match o with
  | none => true
  | some limits => validLimits limits

/-- Modelled from the spec: `GetPatch` — the Patch Builder (§4.2).  Produces
the patch of explicitly provided fields; an Ops/ACLs value outside the
closed enumeration, or a malformed Limits, aborts the whole patch with a
`ValidationError`.  UserId and Username are not patchable through this path
(the spec leaves ignore-vs-reject open; the model ignores them). -/
def getPatch (obj : BodyPermission) : Except PermError Patch :=
  if !opsOk obj.ops then .error (.validationError "ops")
  else if !aclsOk obj.acls then .error (.validationError "acls")
  else if !limitsOk obj.limits then .error (.validationError "limits")
  else .ok { ops := obj.ops, acls := obj.acls, limits := obj.limits }

/-- The inbound PATCH request: the `username` path variable and the
body-read outcome. -/
structure PatchRequest where
  username : String
  body : Body
deriving DecidableEq, Repr

/-- Observable outcome of the patch and delete handlers: HTTP status and
whether the store was called. -/
structure HandlerOutcome where
  status : Nat
  storeCalled : Bool
deriving DecidableEq, Repr

/-- The patchPermission handler.  `store` is the `(ok, err)` answer
`p.es.patchPermission` would give when called.  Mirrors the source: body
read or parse failure → 400; a `GetPatch` error → 400; then the store is
called and `ok && err == nil` decides between 200 and 500 — there is no 404
path. -/
def patchPermission (req : PatchRequest) (store : Bool × Option StoreErr) :
    HandlerOutcome :=
  match req.body with
  | .readError => { status := 400, storeCalled := false }
  | .parseError => { status := 400, storeCalled := false }
  | .parsed obj =>
      match getPatch obj with
      | .error _ => { status := 400, storeCalled := false }
      | .ok _ =>
          if store.1 && store.2.isNone then
            { status := 200, storeCalled := true }
          else
            { status := 500, storeCalled := true }

/-- The deletePermission handler.  `store` is the `(ok, err)` answer
`p.es.deletePermission(username)` would give.  Mirrors the source: `ok &&
err == nil` decides between 200 and 500 — there is no 404 path. -/
def deletePermission (_username : String) (store : Bool × Option StoreErr) :
    HandlerOutcome :=
  if store.1 && store.2.isNone then
    { status := 200, storeCalled := true }
  else
    { status := 500, storeCalled := true }

/-! ## Route table and middleware pipeline -/

/-- The five middleware guards appearing in the route table. -/
inductive Guard
  | classifier
  | basicAuth
  | validateOp
  | validateACL
  | isAdmin
deriving DecidableEq, Repr

/-- A route of the plugin: name, HTTP methods, path pattern, and the guard
chain wrapped around the terminal handler, outermost (first executed)
first. -/
structure Route where
  name : String
  methods : List String
  path : String
  guards : List Guard
deriving DecidableEq, Repr

/-- The route table of the plugin, from `routes()`: each HandlerFunc is the
terminal handler wrapped as
`classifier(basicAuth(validateOp(validateACL([isAdmin(...)]))))`, with
isAdmin present on Create/Patch/Delete and absent on Get. -/
def routes : List Route :=
  [ { name := "Get Permission"
      methods := ["GET"]
      path := "/_permission/\x7busername\x7d"
      guards := [.classifier, .basicAuth, .validateOp, .validateACL] },
    { name := "Create Permission"
      methods := ["PUT"]
      path := "/_permission"
      guards := [.classifier, .basicAuth, .validateOp, .validateACL, .isAdmin] },
    { name := "Patch Permission"
      methods := ["PATCH"]
      path := "/_permission/\x7busername\x7d"
      guards := [.classifier, .basicAuth, .validateOp, .validateACL, .isAdmin] },
    { name := "Delete Permission"
      methods := ["DELETE"]
      path := "/_permission/\x7busername\x7d"
      guards := [.classifier, .basicAuth, .validateOp, .validateACL, .isAdmin] } ]

/-- A request as the guard pipeline observes it: whether a validated basic
auth credential is present, and whether the resolved principal satisfies the
Op, ACL and Admin requirements of the endpoint. -/
structure PipeRequest where
  hasCredential : Bool
  opAllowed : Bool
  aclAllowed : Bool
  adminAllowed : Bool
deriving DecidableEq, Repr

/-- Modelled from the spec: the decision of each guard (§4.3).  The
classifier only tags the request (no rejection authority); the basic auth
guard requires a credential; the Op/ACL/Admin guards require the respective
authorization. -/
def guardPasses (g : Guard) (req : PipeRequest) : Bool :=
  match g with
  | .classifier => true
  | .basicAuth => req.hasCredential
  | .validateOp => req.opAllowed
  | .validateACL => req.aclAllowed
  | .isAdmin => req.adminAllowed

/-- Runs a guard chain in order: returns the list of guards that were
invoked and the guard that terminated the request, if any.  A failing guard
is invoked but passes control no further. -/
def runPipeline : List Guard → PipeRequest → List Guard × Option Guard
  | [], _ => ([], none)
  | g :: gs, req =>
      if guardPasses g req then
        let rest := runPipeline gs req
        (g :: rest.1, rest.2)
      else
        ([g], some g)

/-! ## Plugin bootstrap (from the source) -/

/-- Environment variable name checked first by InitFunc. -/
def envEsURL : String := "ES_CLUSTER_URL"

/-- Environment variable name checked second by InitFunc. -/
def envPermissionEsIndex : String := "PERMISSIONS_ES_INDEX"

/-- Environment variable name checked third by InitFunc. -/
def envPermissionEsType : String := "PERMISSIONS_ES_TYPE"

/-- The environment as InitFunc reads it: the three variables, `""` meaning
unset (Go's `os.Getenv` zero value). -/
structure Env where
  esClusterURL : String
  permissionsEsIndex : String
  permissionsEsType : String
deriving DecidableEq, Repr

/-- The errors InitFunc can return: an EnvVarNotSetError naming the unset
variable, or a wrapped error from constructing the elasticsearch dao. -/
inductive InitError
  | envVarNotSet (name : String)
  | esInitError (msg : String)
deriving DecidableEq, Repr

/-- Observable outcome of InitFunc: the returned error, if any, and whether
`NewES` (the dao constructor) was invoked. -/
structure InitOutcome where
  result : Option InitError
  newESCalled : Bool
deriving DecidableEq, Repr

/-- The plugin's InitFunc.  `newES` is the answer `NewES(url, indexName,
typeName, mapping)` would give when called.  Mirrors the source: the three
environment variables are checked in order, each empty one returning an
EnvVarNotSetError naming it; only past all three checks is the dao
constructed, its error wrapped and returned. -/
def initFunc (env : Env) (newES : Except String Unit) : InitOutcome :=
  if env.esClusterURL = "" then
    { result := some (.envVarNotSet envEsURL), newESCalled := false }
  else if env.permissionsEsIndex = "" then
    { result := some (.envVarNotSet envPermissionEsIndex), newESCalled := false }
  else if env.permissionsEsType = "" then
    { result := some (.envVarNotSet envPermissionEsType), newESCalled := false }
  else
    match newES with
    | .error e =>
        { result := some (.esInitError e), newESCalled := true }
    | .ok _ =>
        { result := none, newESCalled := true }

/-! ## Helper lemmas -/

/-- Whether an option is the SetUserId setter. -/
def isSetUserId : Options → Bool
  | .setUserId _ => true
  | _ => false

lemma applyOption_userId (p q : Permission) (o : Options)
    (ho : isSetUserId o = false) (h : applyOption p o = .ok q) :
    q.userId = p.userId := by
  cases o with
  | setUserId u => simp [isSetUserId] at ho
  | setOps ops =>
      simp only [applyOption] at h
      split at h
      · cases h; rfl
      · cases h
  | setACLs acls =>
      simp only [applyOption] at h
      split at h
      · cases h; rfl
      · cases h
  | setLimits limits =>
      simp only [applyOption] at h
      split at h
      · cases h; rfl
      · cases h

lemma applyOptions_userId (opts : List Options) (p q : Permission)
    (ho : ∀ o ∈ opts, isSetUserId o = false)
    (h : applyOptions p opts = .ok q) : q.userId = p.userId := by
  induction opts generalizing p with
  | nil => simp only [applyOptions] at h; cases h; rfl
  | cons o os ih =>
      simp only [applyOptions] at h
      cases hd : applyOption p o with
      | error e => rw [hd] at h; cases h
      | ok r =>
          rw [hd] at h
          have h1 : r.userId = p.userId :=
            applyOption_userId p r o (ho o (List.mem_cons_self o os)) hd
          have h2 : q.userId = r.userId :=
            ih r (fun x hx => ho x (List.mem_cons_of_mem o hx)) h
          rw [h2, h1]

lemma tailOpts_not_setUserId (obj : BodyPermission) :
    ∀ o ∈ tailOpts obj, isSetUserId o = false := by
  intro o hmem
  rcases obj with ⟨u, ops, acls, limits⟩
  cases ops <;> cases acls <;> cases limits <;>
    simp only [tailOpts, List.append_nil, List.nil_append, List.cons_append,
      List.mem_append, List.mem_singleton, List.mem_cons,
      List.not_mem_nil, or_false, false_or] at hmem <;>
    rcases hmem with rfl | rfl | rfl <;> rfl

lemma buildOpts_userId_empty (obj : BodyPermission) (h : obj.userId = "") :
    buildOpts obj = tailOpts obj := by
  simp [buildOpts, userIdOpts, h]

lemma buildOpts_userId_nonempty (obj : BodyPermission) (h : obj.userId ≠ "") :
    buildOpts obj = Options.setUserId obj.userId :: tailOpts obj := by
  simp [buildOpts, userIdOpts, h]

/-- The UserId of a successfully constructed Permission in putPermission:
the creator's identifier when the body's UserId is empty, otherwise the
body's UserId. -/
lemma permissionNew_buildOpts_userId (creatorId : String)
    (obj : BodyPermission) (perm : Permission)
    (h : permissionNew creatorId (buildOpts obj) = .ok perm) :
    perm.userId = if obj.userId = "" then creatorId else obj.userId := by
  by_cases hu : obj.userId = ""
  · rw [if_pos hu]
    rw [permissionNew, buildOpts_userId_empty obj hu] at h
    have := applyOptions_userId (tailOpts obj) _ _
      (tailOpts_not_setUserId obj) h
    rw [this]; rfl
  · rw [if_neg hu]
    rw [permissionNew, buildOpts_userId_nonempty obj hu] at h
    simp only [applyOptions, applyOption] at h
    exact applyOptions_userId (tailOpts obj) _ _
      (tailOpts_not_setUserId obj) h

/-! ## Claim theorems -/

/-- C1 (counterexample): a create request authenticated as "alice" whose
body supplies UserId "mallory" persists a Permission whose UserId is
"mallory", not the caller's own identifier — the body value does override
the authenticated identity. -/
theorem putPermission_body_userId_overrides_caller :
    ((putPermission
        { basicAuth := some ("alice", "pw"),
          body := .parsed { userId := "mallory", ops := none, acls := none, limits := none } }
        (true, none)).constructed.map Permission.userId) = some "mallory" ∧
    "mallory" ≠ "alice" := by
  exact ⟨rfl, by decide⟩

/-- C1 (amended): in putPermission the UserId of the constructed Permission
is the authenticated caller's basic-auth identifier only when the request
body's UserId is empty; a non-empty body UserId is forwarded through
SetUserId and overrides the caller's identifier. -/
theorem putPermission_userId_amended (uid pw : String) (obj : BodyPermission)
    (store : Bool × Option StoreErr) (perm : Permission)
    (h : (putPermission { basicAuth := some (uid, pw), body := .parsed obj }
            store).constructed = some perm) :
    perm.userId = if obj.userId = "" then uid else obj.userId := by
  cases hn : permissionNew uid (buildOpts obj) with
  | error e =>
      exfalso
      simp only [putPermission, hn] at h
      exact Option.noConfusion h
  | ok np =>
      have hnp : perm = np := by
        simp only [putPermission, hn, apply_ite PutOutcome.constructed,
          ite_self] at h
        exact (Option.some.inj h).symm
      rw [hnp]
      exact permissionNew_buildOpts_userId uid obj np hn

/-- C1 (witness for the amended theorem at a concrete input): with caller
"alice" and an empty body, the constructed Permission's UserId is
"alice". -/
theorem putPermission_userId_amended_witness :
    (defaultPermission "alice").userId = "alice" :=
  putPermission_userId_amended "alice" "pw"
    { userId := "", ops := none, acls := none, limits := none } (true, none)
    (defaultPermission "alice") rfl

/-- C2: on a create request whose body holds the out-of-enumeration op
"bogus", putPermission maps the construction ValidationError to HTTP 500
(InternalError), not a 400-class status — while the store is indeed never
called; the patch path maps the same invalid value to 400 with the store
uncalled.  The 500 contradicts the handler's own doc comment ("Invalid
values passed explicitly in the request body will cause the handler to
return http.StatusBadRequest"). -/
theorem enumeration_error_construction_500_store_uncalled :
    (putPermission
        { basicAuth := some ("alice", "pw"),
          body := .parsed { userId := "", ops := some ["bogus"], acls := none, limits := none } }
        (true, none)).status = 500 ∧
    (putPermission
        { basicAuth := some ("alice", "pw"),
          body := .parsed { userId := "", ops := some ["bogus"], acls := none, limits := none } }
        (true, none)).storeCalled = false ∧
    (patchPermission
        { username := "bob",
          body := .parsed { userId := "", ops := some ["bogus"], acls := none, limits := none } }
        (true, none)).status = 400 ∧
    (patchPermission
        { username := "bob",
          body := .parsed { userId := "", ops := some ["bogus"], acls := none, limits := none } }
        (true, none)).storeCalled = false := by
  refine ⟨rfl, rfl, rfl, rfl⟩

/-- C3 (counterexample): a fetch request whose context already carries a
resolved Permission still calls the store (there is no return after the
context write), and two responses are written. -/
theorem getPermission_ctx_still_fetches :
    (getPermission { username := "bob", ctxPermission := some (defaultPermission "alice") }
        (.ok "doc")).storeCalled = true ∧
    (getPermission { username := "bob", ctxPermission := some (defaultPermission "alice") }
        (.ok "doc")).writes.length = 2 := by
  exact ⟨rfl, rfl⟩

/-- C3 (amended): when the request context carries a resolved Permission,
getPermission writes it back first with 200 but then still performs the
store lookup on every request and writes its result as well; the store
lookup is not limited to the no-context case. -/
theorem getPermission_always_fetches_amended (req : GetRequest)
    (storeGet : Except StoreErr String) (p : Permission)
    (h : req.ctxPermission = some p) :
    (getPermission req storeGet).storeCalled = true ∧
    (getPermission req storeGet).writes.head?
      = some (200, GetWrite.ctxPerm p) := by
  cases storeGet <;> simp [getPermission, h]

/-- C3 (witness for the amended theorem at a concrete input). -/
theorem getPermission_always_fetches_amended_witness :
    (getPermission { username := "bob", ctxPermission := some (defaultPermission "alice") }
        (.ok "doc")).storeCalled = true ∧
    (getPermission { username := "bob", ctxPermission := some (defaultPermission "alice") }
        (.ok "doc")).writes.head?
      = some (200, GetWrite.ctxPerm (defaultPermission "alice")) :=
  getPermission_always_fetches_amended _ (.ok "doc") _ rfl

/-- C4: a store/transport failure in getPermission is written back as 404
not-found — the same outcome as a missing username — not as 500
InternalError; the code does not distinguish the two, contradicting the
handler's own doc comment ("An error on the side of elasticsearch client
causes the handler to return http.StatusInternalServerError"). -/
theorem getPermission_store_error_yields_404 :
    getPermission { username := "bob", ctxPermission := none } (.error .failure)
      = { writes := [(404, GetWrite.errNotFound "bob")], storeCalled := true } := rfl

/-- C5 (counterexample): deleting a username absent from the store (the
store reports not-found) returns 500, not 404. -/
theorem deletePermission_absent_counterexample :
    (deletePermission "doesnotexist" (false, some StoreErr.notFound)).status = 500 ∧
    (deletePermission "doesnotexist" (false, some StoreErr.notFound)).status ≠ 404 := by
  exact ⟨rfl, by decide⟩

/-- C5 (amended): patchPermission (past body parsing and patch validation)
and deletePermission collapse every unsuccessful store answer — absent
username and store failure alike — into HTTP 500 InternalError; neither
handler has a 404 path. -/
theorem patch_delete_failure_amended (username : String)
    (obj : BodyPermission) (p : Patch) (store : Bool × Option StoreErr)
    (hobj : getPatch obj = .ok p)
    (hstore : (store.1 && store.2.isNone) = false) :
    (patchPermission { username := username, body := .parsed obj } store).status = 500 ∧
    (deletePermission username store).status = 500 := by
  constructor
  · simp [patchPermission, hobj, hstore]
  · simp [deletePermission, hstore]

/-- C5 (witness for the amended theorem at a concrete input). -/
theorem patch_delete_failure_amended_witness :
    (patchPermission
        { username := "doesnotexist",
          body := .parsed { userId := "", ops := none, acls := none, limits := none } }
        (false, some StoreErr.notFound)).status = 500 ∧
    (deletePermission "doesnotexist" (false, some StoreErr.notFound)).status = 500 :=
  patch_delete_failure_amended "doesnotexist"
    { userId := "", ops := none, acls := none, limits := none }
    { ops := none, acls := none, limits := none }
    (false, some StoreErr.notFound) rfl rfl

/-- C6: every route's guard chain starts with Classifier, then the basic
auth credential check, then the Op check, then the ACL check; and on a
request with no credential the pipeline invokes only Classifier and the
credential check, terminating there — the Op, ACL and Admin guards are
never reached. -/
theorem pipeline_no_credential (r : Route) (hr : r ∈ routes)
    (req : PipeRequest) (h : req.hasCredential = false) :
    r.guards.take 4
      = [Guard.classifier, Guard.basicAuth, Guard.validateOp, Guard.validateACL] ∧
    runPipeline r.guards req
      = ([Guard.classifier, Guard.basicAuth], some Guard.basicAuth) := by
  fin_cases hr <;>
    exact ⟨rfl, by simp [runPipeline, guardPasses, h]⟩

/-- C6 (witness at a concrete route and request): the Get Permission route
with a credential-less request stops at the basic auth guard. -/
theorem pipeline_no_credential_witness :
    (({ name := "Get Permission"
        methods := ["GET"]
        path := "/_permission/\x7busername\x7d"
        guards := [.classifier, .basicAuth, .validateOp, .validateACL] } : Route).guards.take 4
      = [Guard.classifier, Guard.basicAuth, Guard.validateOp, Guard.validateACL]) ∧
    runPipeline
      ({ name := "Get Permission"
         methods := ["GET"]
         path := "/_permission/\x7busername\x7d"
         guards := [.classifier, .basicAuth, .validateOp, .validateACL] } : Route).guards
      { hasCredential := false, opAllowed := true, aclAllowed := true, adminAllowed := true }
      = ([Guard.classifier, Guard.basicAuth], some Guard.basicAuth) :=
  pipeline_no_credential _ (by decide)
    { hasCredential := false, opAllowed := true, aclAllowed := true, adminAllowed := true }
    rfl

/-- C7: the Admin Check guard is applied to exactly the Create, Patch and
Delete routes and not to the Get (fetch) route. -/
theorem isAdmin_guard_exactly_on_mutating_routes :
    routes.map (fun r => (r.name, r.methods, r.guards.contains Guard.isAdmin))
      = [("Get Permission", ["GET"], false),
         ("Create Permission", ["PUT"], true),
         ("Patch Permission", ["PATCH"], true),
         ("Delete Permission", ["DELETE"], true)] := by
  rfl

/-- C8: a create request with no parseable basic-auth credential pair is
answered 401 by the putPermission handler itself, before the body is read,
before any Permission is constructed, and without any store call — for
every body and every store behaviour. -/
theorem putPermission_missing_credentials_401 (body : Body)
    (store : Bool × Option StoreErr) :
    putPermission { basicAuth := none, body := body } store
      = { status := 401, bodyRead := false, storeCalled := false,
          constructed := none } := rfl

/-- C9: InitFunc checks ES_CLUSTER_URL, PERMISSIONS_ES_INDEX and
PERMISSIONS_ES_TYPE in that order, returning an EnvVarNotSetError naming
the first empty one without constructing the dao; only when all three are
set is NewES invoked, whose failure is the only remaining error. -/
theorem initFunc_env_var_checks (env : Env) (newES : Except String Unit) :
    (env.esClusterURL = "" →
      initFunc env newES
        = { result := some (.envVarNotSet "ES_CLUSTER_URL"), newESCalled := false }) ∧
    (env.esClusterURL ≠ "" → env.permissionsEsIndex = "" →
      initFunc env newES
        = { result := some (.envVarNotSet "PERMISSIONS_ES_INDEX"), newESCalled := false }) ∧
    (env.esClusterURL ≠ "" → env.permissionsEsIndex ≠ "" → env.permissionsEsType = "" →
      initFunc env newES
        = { result := some (.envVarNotSet "PERMISSIONS_ES_TYPE"), newESCalled := false }) ∧
    (env.esClusterURL ≠ "" → env.permissionsEsIndex ≠ "" → env.permissionsEsType ≠ "" →
      (initFunc env newES).newESCalled = true ∧
      initFunc env newES
        = match newES with
          | .error e => { result := some (.esInitError e), newESCalled := true }
          | .ok _ => { result := none, newESCalled := true }) := by
  refine ⟨?_, ?_, ?_, ?_⟩
  · intro h1
    simp [initFunc, h1, envEsURL]
  · intro h1 h2
    simp [initFunc, h1, h2, envPermissionEsIndex]
  · intro h1 h2 h3
    simp [initFunc, h1, h2, h3, envPermissionEsType]
  · intro h1 h2 h3
    cases newES <;> simp [initFunc, h1, h2, h3]

/-- C9 (witness at concrete environments): an empty ES_CLUSTER_URL yields
the named EnvVarNotSetError without constructing the dao, and a fully set
environment invokes NewES. -/
theorem initFunc_env_var_checks_witness :
    initFunc { esClusterURL := "", permissionsEsIndex := "idx", permissionsEsType := "typ" }
        (.ok ())
      = { result := some (.envVarNotSet "ES_CLUSTER_URL"), newESCalled := false } ∧
    (initFunc { esClusterURL := "http", permissionsEsIndex := "idx", permissionsEsType := "typ" }
        (.ok ())).newESCalled = true :=
  ⟨(initFunc_env_var_checks
      { esClusterURL := "", permissionsEsIndex := "idx", permissionsEsType := "typ" }
      (.ok ())).1 rfl,
   ((initFunc_env_var_checks
      { esClusterURL := "http", permissionsEsIndex := "idx", permissionsEsType := "typ" }
      (.ok ())).2.2.2 (by decide) (by decide) (by decide)).1⟩

/-- C10: in the create handler's option building, an absent (JSON-null) Ops,
ACLs or Limits field contributes no construction option, while an explicitly
provided value — including an explicitly empty list — is forwarded verbatim
to the corresponding setter: the setter for a field appears in the option
list exactly when the field was explicitly provided, carrying exactly the
provided value. -/
theorem buildOpts_absent_vs_provided (obj : BodyPermission) :
    (∀ l, Options.setOps l ∈ buildOpts obj ↔ obj.ops = some l) ∧
    (∀ l, Options.setACLs l ∈ buildOpts obj ↔ obj.acls = some l) ∧
    (∀ l, Options.setLimits l ∈ buildOpts obj ↔ obj.limits = some l) := by
  rcases obj with ⟨u, ops, acls, limits⟩
  by_cases hu : u = "" <;>
    cases ops <;> cases acls <;> cases limits <;>
      refine ⟨fun l => ?_, fun l => ?_, fun l => ?_⟩ <;>
        simp [buildOpts, userIdOpts, tailOpts, hu, eq_comm]

end Arc
